import Mathlib

set_option maxRecDepth 8000

/-!
Shallow embedding of the CoachHub forecast dashboard pipeline (src/app.py).

The pandas DataFrame is modelled as a `List Record`; a missing cell value
(pandas `NaN` / `NaT`) is `Option.none`.  Pandas numeric values are modelled
as exact rationals.  Each definition below mirrors one expression of the
source file; line references point into src/app.py.
-/

/-- A calendar date as produced by `pd.to_datetime(..., errors="coerce")`
for a successfully parsed value; an unparseable or absent close date is
`none` (pandas `NaT`). -/
structure SDate where
  year : Int
  month : Nat
  day : Nat
deriving DecidableEq, Repr

/-- Strict ordering of timestamps (lexicographic year, month, day). -/
def SDate.lt (a b : SDate) : Bool :=
  a.year < b.year ||
    (a.year == b.year &&
      (a.month < b.month || (a.month == b.month && a.day < b.day)))

/-- Number of days in a month (Gregorian), used for day clamping by the
month offset. -/
def daysInMonth (y : Int) (m : Nat) : Nat :=
  if m == 2 then
    (if y % 4 == 0 && (y % 100 != 0 || y % 400 == 0) then 29 else 28)
  else if m == 4 || m == 6 || m == 9 || m == 11 then 30
  else 31

/-- `pd.Timestamp + pd.DateOffset(months=6)` (src/app.py line 54): add six
calendar months, clamping the day to the end of the target month. -/
def addSixMonths (d : SDate) : SDate :=
  let m0 := d.month + 6
  let y := if m0 > 12 then d.year + 1 else d.year
  let m := if m0 > 12 then m0 - 12 else m0
  { year := y, month := m, day := min d.day (daysInMonth y m) }

/-- One row of the forecast sheet after the `to_datetime` coercion of
src/app.py line 37.  `none` models a NaN/NaT cell. -/
structure Record where
  opportunityOwner : String
  forecastCategory : Option String
  modelDealStrength : Option String
  modelWeighting : Option Rat
  potentialAmount : Option Rat
  modelAmount : Option Rat
  closeDate : Option SDate
deriving DecidableEq, Repr

/-- Quarter label derivation (src/app.py line 38):
`data["Close Date"].dt.to_period("Q").astype(str)`.  A parsed date gives
"YYYYQn"; a NaT close date stringifies to the literal "NaT". -/
def quarterOf (r : Record) : String :=
  match r.closeDate with
  | some d => toString d.year ++ "Q" ++ toString ((d.month - 1) / 3 + 1)
  | none => "NaT"

/-- Sidebar category vocabulary (src/app.py line 22). -/
def forecast_categories : List String := ["Pipeline", "Best Case", "Probable", "Commit"]

/-- Sidebar strength vocabulary (src/app.py line 24). -/
def model_strengths : List String := ["Weak", "Moderate", "Strong"]

/-- The boolean filter mask of src/app.py lines 41-45, evaluated per row:
`Model Weighting >= threshold  &  Forecast Category ∈ selected
&  Model Deal Strength.strip() ∈ selected`.  In pandas a NaN cell makes the
corresponding comparison / `isin` false, so a missing value is a non-match. -/
def keepRecord (threshold : Rat) (cats strengths : List String) (r : Record) : Bool :=
  (match r.modelWeighting with
   | some w => decide (threshold ≤ w)
   | none => false) &&
  (match r.forecastCategory with
   | some c => decide (c ∈ cats)
   | none => false) &&
  (match r.modelDealStrength with
   | some s => decide (s.trim ∈ strengths)
   | none => false)

/-- The filter step `data = data[mask]` (src/app.py lines 41-45): keeps the
matching rows in their original order. -/
def filterRecords (threshold : Rat) (cats strengths : List String)
    (rs : List Record) : List Record :=
  rs.filter (keepRecord threshold cats strengths)

/-- Substring test, modelling pandas `str.contains` with a fixed plain
pattern (src/app.py line 52): `s.splitOn pat` has more than one piece
exactly when the (non-empty) pattern occurs in `s`. -/
def strContains (s pat : String) : Bool :=
  (s.splitOn pat).length != 1

/-- `data["Model Weighting"].max()` (src/app.py line 50): pandas max skips
NaN; an empty or all-NaN column yields NaN, modelled as `none`. -/
def maxWeighting (rs : List Record) : Option Rat :=
  (rs.filterMap (fun r => r.modelWeighting)).foldl
    (fun acc w =>
      match acc with
      | none => some w
      | some a => some (if a < w then w else a)) none

/-- `data["Close Date"].max()` (src/app.py line 54): NaT values are
skipped; empty yields NaT (`none`). -/
def maxCloseDate (rs : List Record) : Option SDate :=
  (rs.filterMap (fun r => r.closeDate)).foldl
    (fun acc d =>
      match acc with
      | none => some d
      | some a => some (if SDate.lt a d then d else a)) none

/-- Insight rule of src/app.py line 50: `max(Model Weighting) > 0.8`; a NaN
max compares false. -/
def highRule (rs : List Record) : Bool :=
  match maxWeighting rs with
  | some m => decide ((4 : Rat) / 5 < m)
  | none => false

/-- Count of rows whose Forecast Category contains "Pipeline" as a
substring (src/app.py line 52); a NaN category is skipped by the sum. -/
def countPipelineLike (rs : List Record) : Nat :=
  (rs.filter (fun r =>
    match r.forecastCategory with
    | some c => strContains c "Pipeline"
    | none => false)).length

/-- Insight rule of src/app.py line 52:
`contains("Pipeline").sum() > len(data) / 2` (true-division). -/
def pipelineHeavy (rs : List Record) : Bool :=
  decide ((rs.length : Rat) / 2 < (countPipelineLike rs : Rat))

/-- Insight rule of src/app.py line 54:
`max(Close Date) > now + DateOffset(months=6)`; NaT compares false. -/
def staleRule (rs : List Record) (now : SDate) : Bool :=
  match maxCloseDate rs with
  | some m => SDate.lt (addSixMonths now) m
  | none => false

/-- Advisory text appended by the high-confidence rule (src/app.py line 51). -/
def msgHigh : String :=
  "✅ Some deals show high model confidence — these may be strong candidates for commit."

/-- Advisory text appended by the pipeline-heavy rule (src/app.py line 53). -/
def msgPipe : String :=
  "🔍 Majority of opportunities are still in pipeline — might be early in the sales cycle."

/-- Advisory text appended by the stale-close-dates rule (src/app.py line 55). -/
def msgStale : String :=
  "🗓️ Several deals appear to be closing far in the future — consider pipeline hygiene."

/-- Fallback message (src/app.py line 61). -/
def msgFallback : String :=
  "📈 No major anomalies detected. Model Amount looks balanced."

/-- The `insights` list built by src/app.py lines 49-55: the three rules
are evaluated in source order, each appending at most one message. -/
def insightMessages (rs : List Record) (now : SDate) : List String :=
  (if highRule rs then [msgHigh] else []) ++
  (if pipelineHeavy rs then [msgPipe] else []) ++
  (if staleRule rs now then [msgStale] else [])

/-- What src/app.py lines 57-61 writes to the page: the rule messages when
any fired, otherwise exactly the fallback message. -/
def displayedInsights (rs : List Record) (now : SDate) : List String :=
  let l := insightMessages rs now
  if l.isEmpty then [msgFallback] else l

/-- Pandas column `.sum()`: NaN cells are skipped, the empty sum is 0. -/
def pandasSum (xs : List (Option Rat)) : Rat :=
  (xs.filterMap id).sum

/-- Whether a category occurs as a (non-null) group key in the data:
groupby drops NaN keys, so a category is a row of the grouped frame
exactly when some record carries it. -/
def catPresent (rs : List Record) (c : String) : Bool :=
  rs.any (fun r => r.forecastCategory == some c)

/-- The records of one category group. -/
def catGroup (rs : List Record) (c : String) : List Record :=
  rs.filter (fun r => r.forecastCategory == some c)

/-- The records of one quarter group (the Quarter column holds the strings
produced by `quarterOf`, including the literal "NaT"). -/
def quarterGroup (rs : List Record) (q : String) : List Record :=
  rs.filter (fun r => quarterOf r == q)

/-- `quarter_totals` (src/app.py line 90):
`data.groupby("Quarter")["Model Amount"].sum()` at one quarter label. -/
def quarterTotal (rs : List Record) (q : String) : Rat :=
  pandasSum ((quarterGroup rs q).map (fun r => r.modelAmount))

/-- One cell of `cat_qtr` (src/app.py lines 74-80):
`groupby(["Forecast Category","Quarter"]).sum().unstack(fill_value=0)
.reindex(canonical).div(1000)`.  A category present in the data yields its
(possibly zero) group sum over the quarter, divided by 1000; a canonical
category absent from the data is reindexed in as a NaN row (`none`) —
`reindex` has no `fill_value` here. -/
def catQtrCell (rs : List Record) (c q : String) : Option Rat :=
  if catPresent rs c then
    some (pandasSum ((rs.filter (fun r =>
      r.forecastCategory == some c && quarterOf r == q)).map
        (fun r => r.modelAmount)) / 1000)
  else none

/-- The rendered `cat_qtr` table: rows in the canonical category order
given to `reindex`, one cell per quarter column. -/
def catQtrView (rs : List Record) (quarters : List String) :
    List (String × List (Option Rat)) :=
  forecast_categories.map (fun c => (c, quarters.map (fun q => catQtrCell rs c q)))

/-- `cat_comp["Potential Amount"]` (src/app.py lines 103-109):
`groupby("Forecast Category").sum().reindex(canonical).fillna(0)
.div(1000)` — an absent canonical category becomes a zero row. -/
def catCompPot (rs : List Record) (c : String) : Rat :=
  if catPresent rs c then
    pandasSum ((catGroup rs c).map (fun r => r.potentialAmount)) / 1000
  else 0

/-- `cat_comp["Model Amount"]` (src/app.py lines 103-109). -/
def catCompModel (rs : List Record) (c : String) : Rat :=
  if catPresent rs c then
    pandasSum ((catGroup rs c).map (fun r => r.modelAmount)) / 1000
  else 0

/-- One cell of `rep_cat` (src/app.py lines 131-141): pivot-table sum of
Model Amount by owner and category, reindexed to the canonical category
columns with `fill_value=0` and `fillna(0)` — every missing combination
is 0. -/
def repCat (rs : List Record) (owner c : String) : Rat :=
  pandasSum ((rs.filter (fun r =>
    r.opportunityOwner == owner && r.forecastCategory == some c)).map
      (fun r => r.modelAmount)) / 1000

/-- A pandas float cell: a finite value, NaN, or a signed infinity. -/
inductive PFloat where
  | val (q : Rat)
  | nan
  | inf
  | ninf
deriving DecidableEq, Repr

/-- Pandas elementwise division: finite/0 gives ±inf (or NaN for 0/0);
any non-finite operand propagates to NaN (that case is never reached by
the pipeline, whose operands are finite group sums). -/
def pdiv : PFloat → PFloat → PFloat
  | .val a, .val b =>
      if b = 0 then (if a = 0 then .nan else if 0 < a then .inf else .ninf)
      else .val (a / b)
  | _, _ => .nan

/-- `.replace([np.inf, -np.inf], np.nan)` (src/app.py line 116). -/
def replaceInfNan : PFloat → PFloat
  | .inf => .nan
  | .ninf => .nan
  | x => x

/-- `* 100` on a pandas float (NaN propagates). -/
def pmul100 : PFloat → PFloat
  | .val q => .val (q * 100)
  | x => x

/-- The `percent` series of src/app.py line 116, at one canonical
category row of `cat_comp`:
`(Model Amount / Potential Amount).replace([inf, -inf], nan) * 100`. -/
def percentCell (rs : List Record) (c : String) : PFloat :=
  pmul100 (replaceInfNan
    (pdiv (.val (catCompModel rs c)) (.val (catCompPot rs c))))

/-- Round-half-to-even to an integer, the rounding used by Python
`format(x, ",.0f")` and by numpy/pandas `round`. -/
def roundHalfEven (x : Rat) : Int :=
  let f := x.floor
  let r := x - (f : Rat)
  if r < 1 / 2 then f
  else if 1 / 2 < r then f + 1
  else if f % 2 == 0 then f else f + 1

/-- Insert a comma after every three digits of a reversed digit list. -/
def groupRev : List Char → List Char
  | a :: b :: c :: d :: rest => a :: b :: c :: ',' :: groupRev (d :: rest)
  | l => l

/-- Thousands-grouped decimal rendering of a natural number. -/
def thousandsNat (n : Nat) : String :=
  String.mk (groupRev (toString n).data.reverse).reverse

/-- Thousands-grouped decimal rendering of an integer. -/
def intThousands (n : Int) : String :=
  (if n < 0 then "-" else "") ++ thousandsNat n.natAbs

/-- The currency formatter `f"{symbol}{x:,.0f}"` of src/app.py lines
155-156: round half-to-even to a whole unit, group thousands, prefix the
symbol. -/
def format_currency (x : Rat) (symbol : String) : String :=
  symbol ++ intThousands (roundHalfEven x)

/-- Render a rational that is an integer multiple of 1/10 the way
`astype(str)` renders the corresponding one-decimal float, given that
multiple of 1/10 as `k / 10`. -/
def oneDecimalRender (k : Int) : String :=
  (if k < 0 then "-" else "") ++
    toString (k.natAbs / 10) ++ "." ++ toString (k.natAbs % 10)

/-- The percent formatter `(x * 100).round(1).astype(str) + "%"` of
src/app.py line 154. -/
def format_percent (x : Rat) : String :=
  oneDecimalRender (roundHalfEven (x * 100 * 10)) ++ "%"

/-- Percent formatting of a cell; a NaN cell stringifies to "nan%". -/
def fmtPercentOpt (x : Option Rat) : String :=
  match x with
  | some q => format_percent q
  | none => "nan%"

/-- Currency formatting of a cell; a NaN cell renders as "nan" after the
symbol. -/
def fmtCurrencyOpt (symbol : String) (x : Option Rat) : String :=
  match x with
  | some q => format_currency q symbol
  | none => symbol ++ "nan"

/-- A row of the final display table (src/app.py lines 151-157), after the
percent and currency columns are overwritten with strings. -/
structure DisplayRecord where
  opportunityOwner : String
  forecastCategory : Option String
  modelDealStrength : Option String
  modelWeighting : String
  potentialAmount : String
  modelAmount : String
deriving DecidableEq, Repr

/-- The in-place reformatting of src/app.py lines 151-156 applied to one
row: Model Weighting is a "Weighting" column (percent-formatted), the two
amount columns are currency-formatted, the categorical columns are left
as they are. -/
def formatRecord (symbol : String) (r : Record) : DisplayRecord :=
  { opportunityOwner := r.opportunityOwner
    forecastCategory := r.forecastCategory
    modelDealStrength := r.modelDealStrength
    modelWeighting := fmtPercentOpt r.modelWeighting
    potentialAmount := fmtCurrencyOpt symbol r.potentialAmount
    modelAmount := fmtCurrencyOpt symbol r.modelAmount }

/-- The sidebar configuration consumed by one run (src/app.py lines 13-25). -/
structure Config where
  symbol : String
  threshold : Rat
  cats : List String
  strengths : List String

/-- Everything one run hands to the view layer. -/
structure PipelineOutput where
  insights : List String
  totalCount : Nat
  totalPotential : Rat
  totalModel : Rat
  displayRows : List DisplayRecord

/-- One pipeline run in source order: filter (lines 41-45), insights
(49-61), summary metrics (66-68), and last the display reformatting of the
filtered rows (151-157). -/
def runPipeline (rs : List Record) (cfg : Config) (now : SDate) : PipelineOutput :=
  let d := filterRecords cfg.threshold cfg.cats cfg.strengths rs
  let ins := displayedInsights d now
  let tp := pandasSum (d.map (fun r => r.potentialAmount))
  let tm := pandasSum (d.map (fun r => r.modelAmount))
  { insights := ins
    totalCount := d.length
    totalPotential := tp
    totalModel := tm
    displayRows := d.map (formatRecord cfg.symbol) }

/-- The column names read off the DataFrame by src/app.py after the
Quarter-derivation step, in source order (lines 41-156).  Each access of a
name absent from the frame raises a KeyError there. -/
def accessedColumns : List String :=
  ["Model Weighting", "Forecast Category", "Model Deal Strength",
   "Model Weighting", "Forecast Category", "Close Date",
   "Potential Amount", "Model Amount",
   "Forecast Category", "Quarter", "Model Amount",
   "Quarter", "Model Amount",
   "Forecast Category", "Potential Amount", "Model Amount",
   "Opportunity Owner", "Forecast Category", "Model Amount",
   "Potential Amount", "Model Amount"]

/-- The columns available after src/app.py lines 36-38: when "Quarter" is
absent but "Close Date" is present, a "Quarter" column is derived. -/
def effectiveCols (cols : List String) : List String :=
  if "Quarter" ∈ cols then cols
  else if "Close Date" ∈ cols then "Quarter" :: cols
  else cols

/-- The first referenced column that is missing, if any: the access at
which the run raises. -/
def firstMissingCol (cols : List String) : Option String :=
  accessedColumns.find? (fun c => decide (c ∉ effectiveCols cols))

/-- Whether a run over a frame with the given columns completes (`ok`) or
aborts with a KeyError naming the first missing column. -/
def pipelineColumnCheck (cols : List String) : Except String Unit :=
  match firstMissingCol cols with
  | some c => Except.error c
  | none => Except.ok ()

/-- The columns the run cannot complete without ("Quarter" is not listed:
it is derivable from "Close Date", which is itself required). -/
def coreColumns : List String :=
  ["Model Weighting", "Forecast Category", "Model Deal Strength",
   "Close Date", "Potential Amount", "Model Amount", "Opportunity Owner"]

/-! ## Sample data used by witnesses and counterexamples -/

/-- The concrete scenario record of the spec (section 8): weighting 0.9,
potential 1000, model amount 100, category Pipeline, far-future close. -/
def scenarioRecord : Record :=
  { opportunityOwner := "Rep A"
    forecastCategory := some "Pipeline"
    modelDealStrength := some "Strong"
    modelWeighting := some (9 / 10)
    potentialAmount := some 1000
    modelAmount := some 100
    closeDate := some { year := 2036, month := 1, day := 1 } }

/-- An evaluation instant far before the scenario close date. -/
def scenarioNow : SDate := { year := 2026, month := 10, day := 12 }

/-- The scenario configuration: threshold 0, all categories, all strengths. -/
def scenarioFiltered : List Record :=
  filterRecords 0 forecast_categories model_strengths [scenarioRecord]

/-- A record whose group ratio is far above 999 percent. -/
def c3RecordHigh : Record :=
  { opportunityOwner := "o", forecastCategory := some "Commit",
    modelDealStrength := some "Strong", modelWeighting := some 1,
    potentialAmount := some 10, modelAmount := some 1000, closeDate := none }

/-- A record whose group potential sums to zero while its model amount
does not. -/
def c3RecordZero : Record :=
  { opportunityOwner := "o", forecastCategory := some "Pipeline",
    modelDealStrength := some "Strong", modelWeighting := some 1,
    potentialAmount := some 0, modelAmount := some 5, closeDate := none }

/-- A record set whose only category is Commit, leaving the other three
canonical categories absent. -/
def c5Record : Record :=
  { opportunityOwner := "o", forecastCategory := some "Commit",
    modelDealStrength := some "Strong", modelWeighting := some 1,
    potentialAmount := some 10, modelAmount := some 10,
    closeDate := some { year := 2024, month := 2, day := 15 } }

/-- A record that triggers no rule but the stale-close-date one, and that
only for evaluation instants more than six months before its close date. -/
def c6Record : Record :=
  { opportunityOwner := "o", forecastCategory := some "Commit",
    modelDealStrength := some "Strong", modelWeighting := some (1 / 2),
    potentialAmount := some 100, modelAmount := some 50,
    closeDate := some { year := 2030, month := 1, day := 1 } }

/-- A record with an unparseable (NaT) close date. -/
def c7Record : Record :=
  { opportunityOwner := "o", forecastCategory := some "Commit",
    modelDealStrength := some "Strong", modelWeighting := some 1,
    potentialAmount := some 7, modelAmount := some 7, closeDate := none }

/-- A schema holding every referenced column except "Model Weighting". -/
def c8MissingCols : List String :=
  ["Forecast Category", "Model Deal Strength", "Close Date",
   "Potential Amount", "Model Amount", "Opportunity Owner"]

/-! ## Claim-level predicates (the filter conjuncts as stated) -/

/-- The first filter conjunct: a model weighting is present and at least
the confidence threshold. -/
def WeightOk (t : Rat) (r : Record) : Prop :=
  ∃ w, r.modelWeighting = some w ∧ t ≤ w

/-- The second filter conjunct: a forecast category is present and
allowed. -/
def CatOk (cats : List String) (r : Record) : Prop :=
  ∃ c, r.forecastCategory = some c ∧ c ∈ cats

/-- The third filter conjunct: a deal strength is present and, after
trimming, allowed. -/
def StrengthOk (strengths : List String) (r : Record) : Prop :=
  ∃ s, r.modelDealStrength = some s ∧ s.trim ∈ strengths

/-- The row mask of src/app.py lines 41-45 holds exactly when the three
conjuncts of the filter contract hold. -/
theorem keepRecord_eq_true_iff (t : Rat) (cats strengths : List String) (r : Record) :
    keepRecord t cats strengths r = true ↔
      WeightOk t r ∧ CatOk cats r ∧ StrengthOk strengths r := by
  unfold keepRecord WeightOk CatOk StrengthOk
  rcases hw : r.modelWeighting with _ | w <;>
    rcases hc : r.forecastCategory with _ | c <;>
      rcases hs : r.modelDealStrength with _ | s <;>
        simp [hw, hc, hs, and_assoc]

/-- C1: for every record set and every configuration with a confidence
threshold in [0,1] and non-empty allowed category and strength lists,
every record the filter keeps satisfies all three conjuncts (weighting
present and at least the threshold, category present and allowed, trimmed
strength present and allowed), and every excluded record whose model
weighting is present violates at least one of the three conjuncts. -/
theorem c1_filter_characterization (t : Rat) (cats strengths : List String)
    (rs : List Record) (ht0 : 0 ≤ t) (ht1 : t ≤ 1)
    (hcats : cats ≠ []) (hstrengths : strengths ≠ []) :
    (∀ r ∈ filterRecords t cats strengths rs,
        WeightOk t r ∧ CatOk cats r ∧ StrengthOk strengths r) ∧
    (∀ r ∈ rs, r ∉ filterRecords t cats strengths rs →
        ∀ w, r.modelWeighting = some w →
          ¬(t ≤ w ∧ CatOk cats r ∧ StrengthOk strengths r)) := by
  constructor
  · intro r hr
    rw [filterRecords, List.mem_filter] at hr
    exact (keepRecord_eq_true_iff t cats strengths r).1 hr.2
  · intro r hrs hnot w hw hcontra
    apply hnot
    rw [filterRecords, List.mem_filter]
    exact ⟨hrs, (keepRecord_eq_true_iff t cats strengths r).2
      ⟨⟨w, hw, hcontra.1⟩, hcontra.2⟩⟩

/-- Witness for C1 at the concrete scenario configuration and record. -/
theorem c1_filter_characterization_witness :
    WeightOk 0 scenarioRecord ∧ CatOk forecast_categories scenarioRecord ∧
      StrengthOk model_strengths scenarioRecord :=
  (c1_filter_characterization 0 forecast_categories model_strengths
      [scenarioRecord] (by norm_num) (by norm_num) (by decide) (by decide)).1
    scenarioRecord (by with_unfolding_all decide)

/-- C2 counterexample: on the concrete scenario the under-forecast
condition `sum(model_amount) < sum(potential_amount) * 0.5` holds
(100 < 500), yet the engine emits three messages, not four — the code has
no under-forecast rule. -/
theorem c2_only_three_rules_cex :
    pandasSum (scenarioFiltered.map fun r => r.modelAmount) <
        pandasSum (scenarioFiltered.map fun r => r.potentialAmount) * (1 / 2) ∧
      (displayedInsights scenarioFiltered scenarioNow).length = 3 := by
  constructor
  · with_unfolding_all decide
  · with_unfolding_all decide

/-- C2 amended: the engine evaluates exactly three rules in the fixed
order high-confidence, pipeline-heavy, stale-close-dates (each emitting at
most one message, so every output is a sublist of the three messages in
that order); there is no under-forecast rule.  On the scenario record all
three rules fire, in that order. -/
theorem c2_rules_fixed_order_amended :
    (∀ (rs : List Record) (now : SDate),
        (insightMessages rs now).Sublist [msgHigh, msgPipe, msgStale]) ∧
      displayedInsights scenarioFiltered scenarioNow = [msgHigh, msgPipe, msgStale] := by
  constructor
  · intro rs now
    unfold insightMessages
    cases h1 : highRule rs <;> cases h2 : pipelineHeavy rs <;>
      cases h3 : staleRule rs now <;> simp
  · with_unfolding_all decide

/-- C3 counterexample: the ratio view carries the value 10000 percent for
a Commit group (no clamping at 999), and carries a NaN entry for a
Pipeline group whose potential sums to zero (the group is not excluded
from the view). -/
theorem c3_percent_unclamped_cex :
    percentCell [c3RecordHigh] "Commit" = PFloat.val 10000 ∧
      ¬((10000 : Rat) ≤ 999) ∧
      percentCell [c3RecordZero] "Pipeline" = PFloat.nan := by
  refine ⟨?_, by norm_num, ?_⟩
  · have hm : catCompModel [c3RecordHigh] "Commit" = 1 := by
      with_unfolding_all decide
    have hp : catCompPot [c3RecordHigh] "Commit" = 1 / 100 := by
      with_unfolding_all decide
    unfold percentCell
    rw [hm, hp]
    norm_num [pdiv, replaceInfNan, pmul100]
  · have hm : catCompModel [c3RecordZero] "Pipeline" = 1 / 200 := by
      with_unfolding_all decide
    have hp : catCompPot [c3RecordZero] "Pipeline" = 0 := by
      with_unfolding_all decide
    unfold percentCell
    rw [hm, hp]
    norm_num [pdiv, replaceInfNan, pmul100]

/-- C3 amended: a group row of the ratio view is NaN exactly when the
group's summed potential amount is zero (division by zero never yields an
infinity: the replace step maps ±inf to NaN); a group with non-zero summed
potential carries exactly `model / potential * 100`, with no clamping
applied. -/
theorem c3_percent_amended (rs : List Record) (c : String) :
    percentCell rs c =
      (if catCompPot rs c = 0 then PFloat.nan
       else PFloat.val (catCompModel rs c / catCompPot rs c * 100)) ∧
    percentCell rs c ≠ PFloat.inf ∧ percentCell rs c ≠ PFloat.ninf := by
  have hmain : percentCell rs c =
      (if catCompPot rs c = 0 then PFloat.nan
       else PFloat.val (catCompModel rs c / catCompPot rs c * 100)) := by
    unfold percentCell
    by_cases hp : catCompPot rs c = 0
    · rw [hp]
      by_cases hm : catCompModel rs c = 0
      · simp [pdiv, hm, replaceInfNan, pmul100]
      · by_cases hm2 : 0 < catCompModel rs c
        · simp [pdiv, hm, hm2, replaceInfNan, pmul100]
        · simp [pdiv, hm, hm2, replaceInfNan, pmul100]
    · simp [pdiv, hp, replaceInfNan, pmul100]
  refine ⟨hmain, ?_, ?_⟩
  · rw [hmain]
    by_cases hp : catCompPot rs c = 0 <;> simp [hp]
  · rw [hmain]
    by_cases hp : catCompPot rs c = 0 <;> simp [hp]

/-- C4: on an empty filtered record set every rule evaluates safely to
not-firing (the NaN/NaT maxima and the zero count compare false), and the
page shows exactly the fallback "no anomalies" message and no rule
message. -/
theorem c4_empty_fallback (now : SDate) :
    displayedInsights ([] : List Record) now = [msgFallback] ∧
      insightMessages ([] : List Record) now = [] := by
  constructor
  · with_unfolding_all rfl
  · with_unfolding_all rfl

/-- C5 counterexample: with data only in the Commit category, the
`cat_qtr` view's Pipeline row is a NaN cell (`none`), not a zero row —
the row-reindex there has no zero fill. -/
theorem c5_catqtr_nan_cex :
    catQtrCell [c5Record] "Pipeline" "2024Q1" = none ∧
      catQtrCell [c5Record] "Pipeline" "2024Q1" ≠ some 0 ∧
      catQtrCell [c5Record] "Commit" "2024Q1" = some (10 / 1000) := by
  refine ⟨?_, ?_, ?_⟩
  · with_unfolding_all decide
  · with_unfolding_all decide
  · with_unfolding_all decide

/-- C5 amended: every category-keyed rendered view lists its rows in the
canonical order Pipeline, Best Case, Probable, Commit; a canonical
category absent from the data is a zero row in `cat_comp` and in
`rep_cat`, but a NaN (`none`) row in `cat_qtr`. -/
theorem c5_absent_category_amended (rs : List Record) (c : String)
    (h : catPresent rs c = false) :
    (∀ q, catQtrCell rs c q = none) ∧
    catCompPot rs c = 0 ∧ catCompModel rs c = 0 ∧
    (∀ owner, repCat rs owner c = 0) ∧
    (∀ quarters, (catQtrView rs quarters).map Prod.fst = forecast_categories) := by
  have habsent : ∀ r ∈ rs, (r.forecastCategory == some c) = false := by
    have h2 : rs.any (fun r => r.forecastCategory == some c) = false := by
      simpa [catPresent] using h
    intro r hr
    have h3 := List.any_eq_false.mp h2 r hr
    simpa using h3
  refine ⟨?_, ?_, ?_, ?_, ?_⟩
  · intro q
    unfold catQtrCell
    rw [h]
    rfl
  · unfold catCompPot
    rw [h]
    rfl
  · unfold catCompModel
    rw [h]
    rfl
  · intro owner
    unfold repCat
    have hnil : rs.filter (fun r =>
        r.opportunityOwner == owner && r.forecastCategory == some c) = [] := by
      rw [List.filter_eq_nil_iff]
      intro r hr
      simp [habsent r hr]
    rw [hnil]
    simp [pandasSum]
  · intro quarters
    unfold catQtrView
    rw [List.map_map]
    exact List.map_id forecast_categories

/-- Witness for C5 at the concrete Commit-only record set. -/
theorem c5_absent_category_amended_witness :
    catQtrCell [c5Record] "Best Case" "2024Q1" = none ∧
      catCompPot [c5Record] "Best Case" = 0 :=
  ⟨(c5_absent_category_amended [c5Record] "Best Case"
      (by with_unfolding_all decide)).1 "2024Q1",
   (c5_absent_category_amended [c5Record] "Best Case"
      (by with_unfolding_all decide)).2.1⟩

/-- C6 counterexample: the same fixed record set evaluated at two
different instants yields different outputs — the stale-close-dates rule
reads the current clock, so evaluation time is hidden state. -/
theorem c6_time_dependent_cex :
    displayedInsights [c6Record] { year := 2020, month := 1, day := 1 } ≠
      displayedInsights [c6Record] { year := 2035, month := 1, day := 1 } := by
  with_unfolding_all decide

/-- C6 amended: the output is a pure function of the filtered record set
and the evaluation instant — two evaluations at the same instant agree,
and the instant influences only the stale-close-dates message: dropping
that message makes the outputs of any two instants identical. -/
theorem c6_determinism_amended (rs : List Record) (n1 n2 : SDate) :
    (insightMessages rs n1).filter (fun m => !(m == msgStale)) =
      (insightMessages rs n2).filter (fun m => !(m == msgStale)) := by
  unfold insightMessages
  simp only [List.filter_append]
  have hstale : ∀ n : SDate,
      (if staleRule rs n then [msgStale] else []).filter
        (fun m => !(m == msgStale)) = [] := by
    intro n
    by_cases hn : staleRule rs n <;> simp [hn]
  rw [hstale n1, hstale n2]

/-- C7 counterexample: a record with an unparseable close date receives
the quarter label "NaT" and contributes its model amount to the
quarter-grouped aggregation under that label — it is not excluded from
quarter-based aggregation. -/
theorem c7_nat_group_cex :
    c7Record.closeDate = none ∧ quarterTotal [c7Record] "NaT" = 7 ∧
      (7 : Rat) ≠ 0 := by
  refine ⟨rfl, ?_, by norm_num⟩
  with_unfolding_all decide

/-- C7 amended: a record whose close date is absent or unparseable is
retained by the category grouping (membership there depends only on its
category), and in quarter-based grouping it is retained as well, under
the synthetic label "NaT" produced by the string cast of the quarter
derivation. -/
theorem c7_missing_date_amended (rs : List Record) (r : Record)
    (h : r.closeDate = none) :
    quarterOf r = "NaT" ∧
    (∀ c, r ∈ catGroup (r :: rs) c ↔ r.forecastCategory = some c) ∧
    r ∈ quarterGroup (r :: rs) "NaT" := by
  have hq : quarterOf r = "NaT" := by
    unfold quarterOf
    rw [h]
  refine ⟨hq, ?_, ?_⟩
  · intro c
    unfold catGroup
    rw [List.mem_filter]
    simp
  · unfold quarterGroup
    rw [List.mem_filter]
    refine ⟨List.mem_cons_self r rs, by simp [hq]⟩

/-- Witness for C7 at the concrete NaT record. -/
theorem c7_missing_date_amended_witness :
    quarterOf c7Record = "NaT" ∧ c7Record ∈ quarterGroup [c7Record] "NaT" :=
  ⟨(c7_missing_date_amended [] c7Record rfl).1,
   (c7_missing_date_amended [] c7Record rfl).2.2⟩

/-- A non-"Quarter" column of the post-derivation frame was already a
column of the input frame. -/
theorem mem_of_mem_effectiveCols {c : String} {cols : List String}
    (hneq : c ≠ "Quarter") (h1 : c ∈ effectiveCols cols) : c ∈ cols := by
  unfold effectiveCols at h1
  by_cases hq : "Quarter" ∈ cols
  · rwa [if_pos hq] at h1
  · rw [if_neg hq] at h1
    by_cases hd : "Close Date" ∈ cols
    · rw [if_pos hd] at h1
      rcases List.mem_cons.mp h1 with h2 | h2
      · exact absurd h2 hneq
      · exact h2
    · rwa [if_neg hd] at h1

/-- Every input column survives the Quarter-derivation step. -/
theorem mem_effectiveCols_of_mem {c : String} {cols : List String}
    (hc : c ∈ cols) : c ∈ effectiveCols cols := by
  unfold effectiveCols
  by_cases hq : "Quarter" ∈ cols
  · rwa [if_pos hq]
  · rw [if_neg hq]
    by_cases hd : "Close Date" ∈ cols
    · rw [if_pos hd]
      exact List.mem_cons_of_mem _ hc
    · rwa [if_neg hd]

/-- C8 counterexample: with every referenced column present except
"Model Weighting", the run aborts at the first filter access with a
KeyError instead of completing with that rule excluded. -/
theorem c8_missing_column_aborts_cex :
    pipelineColumnCheck c8MissingCols = Except.error "Model Weighting" ∧
      pipelineColumnCheck c8MissingCols ≠ Except.ok () := by
  have h1 : pipelineColumnCheck c8MissingCols = Except.error "Model Weighting" := by
    with_unfolding_all rfl
  refine ⟨h1, ?_⟩
  rw [h1]
  intro h2
  exact Except.noConfusion h2

/-- C8 amended: the run completes exactly when all seven referenced
columns (Model Weighting, Forecast Category, Model Deal Strength, Close
Date, Potential Amount, Model Amount, Opportunity Owner) are present; a
missing referenced column aborts the whole run at its first access.  Only
the "Quarter" column is optional: it is derived from "Close Date" when
absent. -/
theorem c8_required_columns_amended (cols : List String) :
    pipelineColumnCheck cols = Except.ok () ↔ ∀ c ∈ coreColumns, c ∈ cols := by
  unfold pipelineColumnCheck firstMissingCol
  constructor
  · intro hok c hc
    rcases hfind : accessedColumns.find?
        (fun c => decide (c ∉ effectiveCols cols)) with _ | x
    · have hall : ∀ x ∈ accessedColumns, x ∈ effectiveCols cols := by
        intro x hx
        have h4 := List.find?_eq_none.mp hfind x hx
        simpa using h4
      simp only [coreColumns, List.mem_cons, List.not_mem_nil, or_false] at hc
      rcases hc with rfl | rfl | rfl | rfl | rfl | rfl | rfl <;>
        exact mem_of_mem_effectiveCols (by decide) (hall _ (by decide))
    · rw [hfind] at hok
      exact absurd hok (by simp)
  · intro hcore
    have hquarter : "Quarter" ∈ effectiveCols cols := by
      unfold effectiveCols
      by_cases hq : "Quarter" ∈ cols
      · rwa [if_pos hq]
      · rw [if_neg hq]
        have hd : "Close Date" ∈ cols := hcore "Close Date" (by decide)
        rw [if_pos hd]
        exact List.mem_cons_self _ _
    have hnone : accessedColumns.find?
        (fun c => decide (c ∉ effectiveCols cols)) = none := by
      rw [List.find?_eq_none]
      intro x hx
      simp only [decide_eq_true_iff, not_not]
      simp only [accessedColumns, List.mem_cons, List.not_mem_nil, or_false] at hx
      rcases hx with rfl | rfl | rfl | rfl | rfl | rfl | rfl | rfl | rfl | rfl |
        rfl | rfl | rfl | rfl | rfl | rfl | rfl | rfl | rfl | rfl | rfl
      all_goals first
        | exact hquarter
        | (apply mem_effectiveCols_of_mem; apply hcore; decide)
    rw [hnone]

/-- Witness for C8 at the full seven-column schema. -/
theorem c8_required_columns_amended_witness :
    pipelineColumnCheck coreColumns = Except.ok () :=
  (c8_required_columns_amended coreColumns).mpr (by decide)

/-- C9: the display formatting sits strictly at the view boundary — the
run's insight list and summary totals are exactly those computed from the
unformatted numeric filtered records; the display rows are a pure map of
the filtered records; the currency symbol (a display-only input) never
influences the insights or totals; and the formatter leaves every
non-formatted field of a record unchanged. -/
theorem c9_formatting_boundary (rs : List Record) (cfg : Config) (now : SDate) :
    (runPipeline rs cfg now).insights =
        displayedInsights (filterRecords cfg.threshold cfg.cats cfg.strengths rs) now ∧
    (runPipeline rs cfg now).totalPotential =
        pandasSum ((filterRecords cfg.threshold cfg.cats cfg.strengths rs).map
          fun r => r.potentialAmount) ∧
    (runPipeline rs cfg now).totalModel =
        pandasSum ((filterRecords cfg.threshold cfg.cats cfg.strengths rs).map
          fun r => r.modelAmount) ∧
    (runPipeline rs cfg now).displayRows =
        (filterRecords cfg.threshold cfg.cats cfg.strengths rs).map
          (formatRecord cfg.symbol) ∧
    (∀ sym1 sym2 : String,
        (runPipeline rs { cfg with symbol := sym1 } now).insights =
            (runPipeline rs { cfg with symbol := sym2 } now).insights ∧
          (runPipeline rs { cfg with symbol := sym1 } now).totalModel =
            (runPipeline rs { cfg with symbol := sym2 } now).totalModel) ∧
    (∀ r : Record,
        (formatRecord cfg.symbol r).forecastCategory = r.forecastCategory ∧
        (formatRecord cfg.symbol r).opportunityOwner = r.opportunityOwner ∧
        (formatRecord cfg.symbol r).modelDealStrength = r.modelDealStrength) :=
  ⟨rfl, rfl, rfl, rfl, fun _ _ => ⟨rfl, rfl⟩, fun _ => ⟨rfl, rfl, rfl⟩⟩

/-- C10 counterexample: the currency formatter rounds half to even, so
1234.5 renders as "$1,234", not the "$1,235" the claim states. -/
theorem c10_currency_rounding_cex :
    format_currency (2469 / 2) "$" = "$1,234" ∧
      format_currency (2469 / 2) "$" ≠ "$1,235" := by
  constructor
  · with_unfolding_all decide
  · with_unfolding_all decide

/-- C10 amended: format_currency rounds half to even (so 1234.5 gives
"$1,234") with thousands grouping and a symbol prefix; format_percent
multiplies by 100, keeps one decimal place and appends "%", so 0.873
gives "87.3%". -/
theorem c10_formatting_amended :
    format_currency (2469 / 2) "$" = "$1,234" ∧
      roundHalfEven (2469 / 2) = 1234 ∧
      format_percent (873 / 1000) = "87.3%" := by
  refine ⟨?_, ?_, ?_⟩
  · with_unfolding_all decide
  · with_unfolding_all decide
  · with_unfolding_all decide

/-- Witness for C2 at a concrete record set and instant. -/
theorem c2_rules_fixed_order_amended_witness :
    (insightMessages [c6Record] scenarioNow).Sublist [msgHigh, msgPipe, msgStale] :=
  c2_rules_fixed_order_amended.1 [c6Record] scenarioNow

/-- Witness for C3 at the concrete zero-potential group. -/
theorem c3_percent_amended_witness :
    percentCell [c3RecordZero] "Pipeline" ≠ PFloat.inf :=
  (c3_percent_amended [c3RecordZero] "Pipeline").2.1

/-- Witness for C4 at a concrete instant. -/
theorem c4_empty_fallback_witness :
    displayedInsights ([] : List Record) scenarioNow = [msgFallback] :=
  (c4_empty_fallback scenarioNow).1

/-- Witness for C6 at a concrete record set and two instants. -/
theorem c6_determinism_amended_witness :
    (insightMessages [c6Record] { year := 2020, month := 1, day := 1 }).filter
        (fun m => !(m == msgStale)) =
      (insightMessages [c6Record] { year := 2035, month := 1, day := 1 }).filter
        (fun m => !(m == msgStale)) :=
  c6_determinism_amended [c6Record] { year := 2020, month := 1, day := 1 }
    { year := 2035, month := 1, day := 1 }

/-- Witness for C9 at the concrete scenario run. -/
theorem c9_formatting_boundary_witness :
    (runPipeline [scenarioRecord]
        { symbol := "$", threshold := 0, cats := forecast_categories,
          strengths := model_strengths } scenarioNow).insights =
      displayedInsights
        (filterRecords 0 forecast_categories model_strengths [scenarioRecord])
        scenarioNow :=
  (c9_formatting_boundary [scenarioRecord]
      { symbol := "$", threshold := 0, cats := forecast_categories,
        strengths := model_strengths } scenarioNow).1
